import Mathlib

/-!
Shallow embedding of the lox-rust tree-walking interpreter
(src/token_type.rs uses reconstructed from call sites, src/expr.rs,
src/environment.rs, src/interpreter.rs, src/callable.rs, src/lox_class.rs,
src/lox_instance.rs, src/object.rs, src/error.rs).

Modelling conventions:
- Rust Rc<RefCell<Environment>> aliasing is embedded as a store (list) of
  Environment records addressed by their allocation index; likewise the
  Rc<RefCell<HashMap>> field tables of instances.
- Rust isize is embedded as Int (overflow is outside every claim); f64 is
  embedded as Rat (no claim probes rounding or NaN).
- HashMap is embedded as an association list whose insert replaces an
  existing key in place, as HashMap::insert does.
- A Rust panic (unreachable!, expect, unwrap, integer division by zero)
  is a distinct outcome, Err.panicked, separate from Err.RuntimeError.
- Recursion of the evaluator is bounded by an explicit fuel parameter that
  decreases on every recursive call; Err.outOfFuel marks exhaustion.
-/

namespace LoxRust

/-- Token kinds used by the core (token_type.rs is not in the snapshot; the
variants are the ones the interpreter, scanner and parser name). -/
inductive TokenType where
  | LEFTPAREN | RIGHTPAREN | LEFTBRACE | RIGHTBRACE
  | COMMA | DOT | MINUS | PLUS | SEMICOLON | SLASH | STAR
  | BANG | BANGEQUAL | EQUAL | EQUALEQUAL
  | GREATER | GREATEREQUAL | LESS | LESSEQUAL
  | IDENTIFIER | STRING | NUMBER
  | AND | CLASS | ELSE | FALSE | FUN | FOR | IF | NIL | OR
  | PRINT | RETURN | SUPER | THIS | TRUE | VAR | WHILE | EOF
  deriving DecidableEq, Repr

/-- Literal payloads (token.rs is not in the snapshot; the variants None,
Bool, Isize, Float, String are the ones interpreter.rs imports and matches). -/
inductive Literal where
  | None
  | Bool (b : Bool)
  | Isize (n : Int)
  | Float (q : Rat)
  | LString (s : String)
  deriving DecidableEq, Repr

/-- Tokens per spec section 3: kind, lexeme text, literal, source line. -/
structure Token where
  token_type : TokenType
  lexeme : String
  literal : Literal
  line : Nat
  deriving DecidableEq, Repr

/-- Expression nodes, from src/expr.rs. -/
inductive Expr where
  | Binary (left : Expr) (operator : Token) (right : Expr)
  | Unary (operator : Token) (right : Expr)
  | Get (object : Expr) (name : Token)
  | Grouping (expression : Expr)
  | Literal (value : Literal)
  | Logical (left : Expr) (operator : Token) (right : Expr)
  | Set (object : Expr) (name : Token) (value : Expr)
  | Super (keyword : Token) (method : Token)
  | This (keyword : Token)
  | Variable (name : Token)
  | Assign (name : Token) (value : Expr)
  | Call (callee : Expr) (paren : Token) (arguments : List Expr)
  deriving Repr

/-- Statement nodes (stmt.rs is not in the snapshot; the variants and their
fields are exactly those of the stmt::Visitor trait interpreter.rs
implements and of the patterns interpreter.rs matches). -/
inductive Stmt where
  | Expression (expression : Expr)
  | Print (expression : Expr)
  | Var (name : Token) (initializer : Expr)
  | Block (statements : List Stmt)
  | If (condition : Expr) (then_branch : Stmt) (else_branch : Option Stmt)
  | While (condition : Expr) (body : Stmt)
  | Function (name : Token) (params : List Token) (body : List Stmt)
  | Return (keyword : Token) (value : Expr)
  | Class (name : Token) (super_class : Option Expr) (class_methods : List Stmt)
  deriving Repr

/-- Function values, from src/callable.rs LoxFunction; the captured closure
is the store index of the shared environment frame. -/
structure LoxFunction where
  name : Token
  params : List Token
  body : List Stmt
  closure : Nat
  is_initializer : Bool
  deriving Repr

/-- Class values, from src/lox_class.rs: a name and a method table only (the
LoxClass struct in src/lox_class.rs has no superclass field). -/
structure LoxClass where
  name : String
  methods : List (String × LoxFunction)
  deriving Repr

/-- Instance values, from src/lox_instance.rs: the class (Rc<LoxClass> is
immutable, so embedded by value) and the store index of the shared mutable
field table (Rc<RefCell<HashMap>>). -/
structure LoxInstance where
  klass : LoxClass
  fields : Nat
  deriving Repr

/-- Runtime values, from src/object.rs. -/
inductive Object where
  | Literal (l : Literal)
  | Func (f : LoxFunction)
  | Clock
  | Class (c : LoxClass)
  | Instance (i : LoxInstance)
  deriving Repr

/-- Error outcomes, from src/error.rs, extended with the two
modelling-only outcomes panicked (a Rust panic) and outOfFuel. -/
inductive Err where
  | Return (v : Object)
  | ParseError (msg : String)
  | RuntimeError (token : Token) (msg : String)
  | ResolveError (token : Token) (msg : String)
  | panicked (msg : String)
  | outOfFuel
  deriving Repr

/-- Structural boolean equality on expressions, standing for the derived
Hash and PartialEq on src/expr.rs Expr that key the resolver's binding
table (the locals HashMap of interpreter.rs, which is keyed by the whole
expression value, tokens included). -/
def beqExpr : Expr → Expr → Bool
  | .Binary l o r, .Binary l2 o2 r2 => beqExpr l l2 && o == o2 && beqExpr r r2
  | .Unary o r, .Unary o2 r2 => o == o2 && beqExpr r r2
  | .Get ob n, .Get ob2 n2 => beqExpr ob ob2 && n == n2
  | .Grouping e, .Grouping e2 => beqExpr e e2
  | .Literal v, .Literal v2 => v == v2
  | .Logical l o r, .Logical l2 o2 r2 => beqExpr l l2 && o == o2 && beqExpr r r2
  | .Set ob n v, .Set ob2 n2 v2 => beqExpr ob ob2 && n == n2 && beqExpr v v2
  | .Super k m, .Super k2 m2 => k == k2 && m == m2
  | .This k, .This k2 => k == k2
  | .Variable n, .Variable n2 => n == n2
  | .Assign n v, .Assign n2 v2 => n == n2 && beqExpr v v2
  | .Call c p a, .Call c2 p2 a2 =>
      beqExpr c c2 && p == p2 && beqExprList a a2
  | _, _ => false
where
  beqExprList : List Expr → List Expr → Bool
  | [], [] => true
  | x :: xs, y :: ys => beqExpr x y && beqExprList xs ys
  | _, _ => false

/-- Association-list lookup standing for HashMap::get. -/
def lookupAssoc {α : Type} (l : List (String × α)) (name : String) : Option α :=
  match l.find? (fun p => p.1 == name) with
  | some p => some p.2
  | none => none

/-- Association-list insert standing for HashMap::insert: replace the value
of an existing key in place, else append the new binding. -/
def insertAssoc {α : Type} (l : List (String × α)) (name : String) (v : α) :
    List (String × α) :=
  match l with
  | [] => [(name, v)]
  | (k, w) :: rest =>
      if k = name then (k, v) :: rest else (k, w) :: insertAssoc rest name v

/-- In-place update of the element at an index of a store, leaving the store
unchanged when the index is out of range (which never happens for the
indices this interpreter allocates). -/
def updateAt {α : Type} (σ : List α) (i : Nat) (f : α → α) : List α :=
  match σ, i with
  | [], _ => []
  | x :: xs, 0 => f x :: xs
  | x :: xs, n + 1 => x :: updateAt xs n f

/-- Environment frames, from src/environment.rs: an optional store index of
the enclosing frame (set once at construction) and the local map. -/
structure Environment where
  enclosing : Option Nat
  values : List (String × Object)
  deriving Repr

/-- Store of environment frames; a frame's address is its list index. -/
abbrev EnvStore := List Environment

/-- Truthiness, from Interpreter::is_truthy (interpreter.rs:58-68): Literal
None is false, Literal Bool is its payload, every other literal is true, and
every non-literal Object falls to the FIXME arm returning false. -/
def is_truthy (object : Object) : Bool :=
  match object with
  | .Literal l =>
      match l with
      | .None => false
      | .Bool b => b
      | _ => true
  | _ => false

/-- Equality, from Interpreter::is_equal (interpreter.rs:80-93): matching
primitive variants compare payloads, every other pair (cross-variant pairs
and the FIXME arm for non-literal operands) is false. -/
def is_equal (a b : Object) : Bool :=
  match a, b with
  | .Literal ola, .Literal olb =>
      match ola, olb with
      | .None, .None => true
      | .Bool a, .Bool b => a == b
      | .LString a, .LString b => a == b
      | .Isize a, .Isize b => a == b
      | .Float a, .Float b => a == b
      | _, _ => false
  | _, _ => false

/-- Binary operator semantics on already-evaluated operands, from
visit_binary (interpreter.rs:116-242). Arithmetic and comparison branches
match literal payload pairs, promote Integer to Float on mixed operands,
report a RuntimeError naming the operator token on any other literal pair,
and hit the unreachable! arm (a panic) when either operand is not a
Literal. Integer division mirrors Rust isize division: truncation toward
zero, and a panic when the divisor is zero. EQUALEQUAL and BANGEQUAL defer
to is_equal; any remaining token kind yields Literal None. -/
def binOp (operator : Token) (left right : Object) : Except Err Object :=
  match operator.token_type with
  | .GREATER =>
      match left, right with
      | .Literal oll, .Literal olr =>
          match oll, olr with
          | .Isize l, .Isize r => .ok (.Literal (.Bool (l > r)))
          | .Isize l, .Float r => .ok (.Literal (.Bool ((l : Rat) > r)))
          | .Float l, .Isize r => .ok (.Literal (.Bool (l > (r : Rat))))
          | .Float l, .Float r => .ok (.Literal (.Bool (l > r)))
          | _, _ => .error (.RuntimeError operator "Operands must be numbers.")
      | _, _ => .error (.panicked "unreachable")
  | .GREATEREQUAL =>
      match left, right with
      | .Literal oll, .Literal olr =>
          match oll, olr with
          | .Isize l, .Isize r => .ok (.Literal (.Bool (l ≥ r)))
          | .Isize l, .Float r => .ok (.Literal (.Bool ((l : Rat) ≥ r)))
          | .Float l, .Isize r => .ok (.Literal (.Bool (l ≥ (r : Rat))))
          | .Float l, .Float r => .ok (.Literal (.Bool (l ≥ r)))
          | _, _ => .error (.RuntimeError operator "Operands must be numbers.")
      | _, _ => .error (.panicked "unreachable")
  | .LESS =>
      match left, right with
      | .Literal oll, .Literal olr =>
          match oll, olr with
          | .Isize l, .Isize r => .ok (.Literal (.Bool (l < r)))
          | .Isize l, .Float r => .ok (.Literal (.Bool ((l : Rat) < r)))
          | .Float l, .Isize r => .ok (.Literal (.Bool (l < (r : Rat))))
          | .Float l, .Float r => .ok (.Literal (.Bool (l < r)))
          | _, _ => .error (.RuntimeError operator "Operands must be numbers.")
      | _, _ => .error (.panicked "unreachable")
  | .LESSEQUAL =>
      match left, right with
      | .Literal oll, .Literal olr =>
          match oll, olr with
          | .Isize l, .Isize r => .ok (.Literal (.Bool (l ≤ r)))
          | .Isize l, .Float r => .ok (.Literal (.Bool ((l : Rat) ≤ r)))
          | .Float l, .Isize r => .ok (.Literal (.Bool (l ≤ (r : Rat))))
          | .Float l, .Float r => .ok (.Literal (.Bool (l ≤ r)))
          | _, _ => .error (.RuntimeError operator "Operands must be numbers.")
      | _, _ => .error (.panicked "unreachable")
  | .MINUS =>
      match left, right with
      | .Literal oll, .Literal olr =>
          match oll, olr with
          | .Isize l, .Isize r => .ok (.Literal (.Isize (l - r)))
          | .Isize l, .Float r => .ok (.Literal (.Float ((l : Rat) - r)))
          | .Float l, .Isize r => .ok (.Literal (.Float (l - (r : Rat))))
          | .Float l, .Float r => .ok (.Literal (.Float (l - r)))
          | _, _ => .error (.RuntimeError operator "Operands must be numbers.")
      | _, _ => .error (.panicked "unreachable")
  | .PLUS =>
      match left, right with
      | .Literal oll, .Literal olr =>
          match oll, olr with
          | .Isize l, .Isize r => .ok (.Literal (.Isize (l + r)))
          | .Isize l, .Float r => .ok (.Literal (.Float ((l : Rat) + r)))
          | .Float l, .Isize r => .ok (.Literal (.Float (l + (r : Rat))))
          | .Float l, .Float r => .ok (.Literal (.Float (l + r)))
          | .LString l, .LString r => .ok (.Literal (.LString (l ++ r)))
          | _, _ => .error (.RuntimeError operator "Operands must be numbers.")
      | _, _ => .error (.panicked "unreachable")
  | .SLASH =>
      match left, right with
      | .Literal oll, .Literal olr =>
          match oll, olr with
          | .Isize l, .Isize r =>
              if r = 0 then .error (.panicked "attempt to divide by zero")
              else .ok (.Literal (.Isize (Int.tdiv l r)))
          | .Isize l, .Float r => .ok (.Literal (.Float ((l : Rat) / r)))
          | .Float l, .Isize r => .ok (.Literal (.Float (l / (r : Rat))))
          | .Float l, .Float r => .ok (.Literal (.Float (l / r)))
          | _, _ => .error (.RuntimeError operator "Operands must be numbers.")
      | _, _ => .error (.panicked "unreachable")
  | .STAR =>
      match left, right with
      | .Literal oll, .Literal olr =>
          match oll, olr with
          | .Isize l, .Isize r => .ok (.Literal (.Isize (l * r)))
          | .Isize l, .Float r => .ok (.Literal (.Float ((l : Rat) * r)))
          | .Float l, .Isize r => .ok (.Literal (.Float (l * (r : Rat))))
          | .Float l, .Float r => .ok (.Literal (.Float (l * r)))
          | _, _ => .error (.RuntimeError operator "Operands must be numbers.")
      | _, _ => .error (.panicked "unreachable")
  | .BANGEQUAL => .ok (.Literal (.Bool (!(is_equal left right))))
  | .EQUALEQUAL => .ok (.Literal (.Bool (is_equal left right)))
  | _ => .ok (.Literal .None)

/-- Unary operator semantics on an already-evaluated operand, from
visit_unary (interpreter.rs:248-266): MINUS on a numeric literal negates,
MINUS on any other literal is a RuntimeError naming the operator token,
BANG on a literal negates truthiness, and every remaining combination
(in particular either operator applied to a non-Literal Object) falls to
the final arm returning Literal None. -/
def unaryOp (operator : Token) (right : Object) : Except Err Object :=
  match operator.token_type, right with
  | .MINUS, .Literal lit =>
      match lit with
      | .Isize r => .ok (.Literal (.Isize (-r)))
      | .Float r => .ok (.Literal (.Float (-r)))
      | _ => .error (.RuntimeError operator "Operand must be a number.")
  | .BANG, .Literal lit => .ok (.Literal (.Bool (!(is_truthy (.Literal lit)))))
  | _, _ => .ok (.Literal .None)

/-- Embeds Environment::define (environment.rs:25-27): insert or overwrite
in the local frame of the addressed environment. -/
def envDefine (σ : EnvStore) (id : Nat) (name : String) (v : Object) : EnvStore :=
  updateAt σ id (fun e => { e with values := insertAssoc e.values name v })

/-- Embeds the chain walk of Environment::get (environment.rs:29-42); the
walk is bounded by an explicit step budget because in a malformed store the
enclosing indices could cycle, which the interpreter never produces (every
frame encloses an earlier-allocated frame). -/
def envGetGo (σ : EnvStore) : Nat → Nat → Token → Except Err Object
  | 0, _, _ => .error .outOfFuel
  | steps + 1, id, name =>
      match σ.get? id with
      | none => .error (.panicked "dangling environment id")
      | some env =>
          match lookupAssoc env.values name.lexeme with
          | some r => .ok r
          | none =>
              match env.enclosing with
              | some e => envGetGo σ steps e name
              | none =>
                  .error (.RuntimeError name
                    ("Undefined variableble '" ++ name.lexeme ++ "'."))

/-- Embeds Environment::get (environment.rs:29-42): search the local frame,
then the enclosing chain; error naming the token when the chain runs out. -/
def envGet (σ : EnvStore) (id : Nat) (name : Token) : Except Err Object :=
  envGetGo σ σ.length id name

/-- Embeds the chain walk of Environment::assign (environment.rs:58-74),
with the same step budget convention as envGetGo. -/
def envAssignGo (σ : EnvStore) : Nat → Nat → Token → Object →
    EnvStore × Except Err Unit
  | 0, _, _, _ => (σ, .error .outOfFuel)
  | steps + 1, id, name, v =>
      match σ.get? id with
      | none => (σ, .error (.panicked "dangling environment id"))
      | some env =>
          if (lookupAssoc env.values name.lexeme).isSome then
            (envDefine σ id name.lexeme v, .ok ())
          else
            match env.enclosing with
            | some e => envAssignGo σ steps e name v
            | none =>
                (σ, .error (.RuntimeError name
                  ("Undefined variable '" ++ name.lexeme ++ "'")))

/-- Embeds Environment::assign (environment.rs:58-74): mutate the first
frame of the chain containing the name, else an undefined-variable error. -/
def envAssign (σ : EnvStore) (id : Nat) (name : Token) (v : Object) :
    EnvStore × Except Err Unit :=
  envAssignGo σ σ.length id name v

/-- Embeds Environment::ancestor (environment.rs:76-87). The Rust function
starts from a clone of self and repeatedly replaces it with a clone of the
enclosing frame (environment.enclosing.unwrap().borrow().clone()); cloning
an Environment duplicates its values map by value (values is a
RefCell<HashMap>, not behind the Rc), so the function returns a by-value
copy of the frame at the given distance. A missing enclosing link panics. -/
def ancestor (σ : EnvStore) : Environment → Nat → Except Err Environment
  | env, 0 => .ok env
  | env, d + 1 =>
      match env.enclosing with
      | none => .error (.panicked "No enclosing format at distance")
      | some e =>
          match σ.get? e with
          | none => .error (.panicked "dangling environment id")
          | some enc => ancestor σ enc d

/-- Embeds Environment::get_at (environment.rs:44-49): read the name in the
frame exactly distance links up; absence there is the unreachable! panic. -/
def get_at (σ : EnvStore) (env : Environment) (distance : Nat) (name : String) :
    Except Err Object :=
  match ancestor σ env distance with
  | .error e => .error e
  | .ok anc =>
      match lookupAssoc anc.values name with
      | some o => .ok o
      | none => .error (.panicked "unreachable")

/-- Embeds Environment::assign_at (environment.rs:51-56). The source does
self.ancestor(distance).values.borrow_mut().insert(name.lexeme, value):
ancestor returns a by-value clone of the target frame, so the insert lands
in that temporary, which is immediately dropped — the store is returned
unchanged. Only a panic inside ancestor is observable. -/
def assign_at (σ : EnvStore) (env : Environment) (distance : Nat)
    (name : Token) (value : Object) : EnvStore × Except Err Unit :=
  match ancestor σ env distance with
  | .error e => (σ, .error e)
  | .ok anc =>
      let _insert_into_dropped_clone := insertAssoc anc.values name.lexeme value
      (σ, .ok ())

/-- Embeds LoxClass::find_method (lox_class.rs:19-24): look the name up in
this class's own method table; there is no superclass field to continue
into. -/
def find_method (c : LoxClass) (name : String) : Option LoxFunction :=
  lookupAssoc c.methods name

/-- Embeds LoxClass::arity (lox_class.rs:38-44): the arity of the init
method when one exists, else 0. -/
def classArity (c : LoxClass) : Nat :=
  match find_method c "init" with
  | some initializer => initializer.params.length
  | none => 0

/-- Embeds LoxFunction::bind (callable.rs:45-55): allocate a fresh one-entry
frame defining this, layered on the function's captured closure, and return
the same function with the fresh frame as its closure. -/
def bind (σ : EnvStore) (f : LoxFunction) (inst : LoxInstance) :
    EnvStore × LoxFunction :=
  let newEnv : Environment :=
    { enclosing := some f.closure, values := insertAssoc [] "this" (.Instance inst) }
  (σ ++ [newEnv], { f with closure := σ.length })

/-- Field-table store of instances; an instance's fields address is its
list index. -/
abbrev FieldStore := List (List (String × Object))

/-- Embeds LoxInstance::get (lox_instance.rs:20-33): check the field table
first, then the class's method table, binding a found method freshly to the
instance; a miss on both is an undefined-property RuntimeError. -/
def instance_get (σ : EnvStore) (ft : FieldStore) (inst : LoxInstance)
    (name : Token) : EnvStore × Except Err Object :=
  match ft.get? inst.fields with
  | none => (σ, .error (.panicked "dangling field table"))
  | some table =>
      match lookupAssoc table name.lexeme with
      | some o => (σ, .ok o)
      | none =>
          match find_method inst.klass name.lexeme with
          | some m =>
              let (σ2, bound) := bind σ m inst
              (σ2, .ok (.Func bound))
          | none =>
              (σ, .error (.RuntimeError name
                ("Undefined property '" ++ name.lexeme ++ "'")))

/-- Embeds LoxInstance::set (lox_instance.rs:35-39): always write the field
table, shadowing any method of the same name. -/
def instance_set (ft : FieldStore) (inst : LoxInstance) (name : Token)
    (v : Object) : FieldStore :=
  updateAt ft inst.fields (fun table => insertAssoc table name.lexeme v)

/-- Interpreter state, from the Interpreter struct (interpreter.rs:15-20)
plus the two heaps standing for Rc<RefCell<..>> sharing and the observable
channels: output collects the values printed by the print statement, diag
collects the errors the top-level interpret loop reports. -/
structure InterpState where
  envs : EnvStore
  fieldTables : FieldStore
  globals : Nat
  environment : Nat
  locals : List (Expr × Nat)
  output : List Object
  diag : List Err
  deriving Repr

/-- Lookup of an expression in the resolver's binding table, standing for
self.locals.get(&expr). -/
def localsGet (st : InterpState) (e : Expr) : Option Nat :=
  match st.locals.find? (fun p => beqExpr p.1 e) with
  | some p => some p.2
  | none => none

/-- Embeds Interpreter::look_up_variable (interpreter.rs:70-78): a recorded
distance reads via get_at on the current environment, otherwise the global
frame's chain get. -/
def look_up_variable (st : InterpState) (name : Token) (e : Expr) :
    Except Err Object :=
  match localsGet st e with
  | some distance =>
      match st.envs.get? st.environment with
      | none => .error (.panicked "dangling environment id")
      | some env => get_at st.envs env distance name.lexeme
  | none => envGet st.envs st.globals name

/-- Define a name in the interpreter's current frame. -/
def stDefine (st : InterpState) (name : String) (v : Object) : InterpState :=
  { st with envs := envDefine st.envs st.environment name v }

/-- Embeds the method-table construction loop of visit_class_stmt
(interpreter.rs:558-577): each Stmt::Function becomes a LoxFunction closing
over the given environment, flagged as initializer when literally named
init; any other statement kind hits unreachable!. -/
def buildMethods (envId : Nat) : List Stmt → List (String × LoxFunction) →
    Except Err (List (String × LoxFunction))
  | [], acc => .ok acc
  | (.Function fname params body) :: rest, acc =>
      buildMethods envId rest
        (insertAssoc acc fname.lexeme
          (LoxFunction.mk fname params body envId (fname.lexeme == "init")))
  | _ :: _, _ => .error (.panicked "unreachable")

/-- Tail of visit_class_stmt (interpreter.rs:541-594) after the superclass
clause has been evaluated: pre-bind the class name to Nil in the current
frame, push a frame defining super when a superclass exists, build the
method table closing over the now-current frame, construct the class, pop
the pushed frame, and assign the class into the pre-bound name through the
chain-walking assign. The construction at interpreter.rs:579 passes the
evaluated superclass to LoxClass::new as well, but the LoxClass struct and
constructor of lox_class.rs record only a name and a method table, so the
superclass value is used only for the super binding. -/
def classStmtTail (st : InterpState) (name : Token)
    (evaluatedSuper : Option LoxClass) (classMethods : List Stmt) :
    InterpState × Except Err Unit :=
  let st2 := stDefine st name.lexeme (.Literal .None)
  let st3 :=
    match evaluatedSuper with
    | some sc =>
        let pushed : Environment :=
          { enclosing := some st2.environment,
            values := insertAssoc [] "super" (.Class sc) }
        { st2 with envs := st2.envs ++ [pushed], environment := st2.envs.length }
    | none => st2
  match buildMethods st3.environment classMethods [] with
  | .error e => (st3, .error e)
  | .ok methods =>
      let klass : LoxClass := { name := name.lexeme, methods := methods }
      let popped : InterpState × Except Err Unit :=
        match evaluatedSuper with
        | none => (st3, .ok ())
        | some _ =>
            match st3.envs.get? st3.environment with
            | none => (st3, .error (.panicked "dangling environment id"))
            | some env =>
                match env.enclosing with
                | none => (st3, .error (.panicked "doesn't have enclosing"))
                | some encl => ({ st3 with environment := encl }, .ok ())
      match popped with
      | (st4, .error e) => (st4, .error e)
      | (st4, .ok _) =>
          let (σ, r) := envAssign st4.envs st4.environment name (.Class klass)
          ({ st4 with envs := σ }, r)

mutual

/-- Embeds Interpreter::evaluate, dispatching as expr::Acceptor does to the
visit_ methods of interpreter.rs; fuel decreases on every recursive call. -/
def evaluate (fuel : Nat) (st : InterpState) (e : Expr) :
    InterpState × Except Err Object :=
  match fuel with
  | 0 => (st, .error .outOfFuel)
  | fuel + 1 =>
      match e with
      | .Literal v => (st, .ok (.Literal v))
      | .Grouping inner => evaluate fuel st inner
      | .Binary l operator r =>
          match evaluate fuel st l with
          | (st1, .error err) => (st1, .error err)
          | (st1, .ok lv) =>
              match evaluate fuel st1 r with
              | (st2, .error err) => (st2, .error err)
              | (st2, .ok rv) => (st2, binOp operator lv rv)
      | .Unary operator r =>
          match evaluate fuel st r with
          | (st1, .error err) => (st1, .error err)
          | (st1, .ok rv) => (st1, unaryOp operator rv)
      | .Variable name => (st, look_up_variable st name (.Variable name))
      | .Assign name value =>
          match evaluate fuel st value with
          | (st1, .error err) => (st1, .error err)
          | (st1, .ok v) =>
              match localsGet st1 (.Assign name value) with
              | some distance =>
                  match st1.envs.get? st1.environment with
                  | none => (st1, .error (.panicked "dangling environment id"))
                  | some env =>
                      match assign_at st1.envs env distance name v with
                      | (σ2, .ok _) => ({ st1 with envs := σ2 }, .ok v)
                      | (σ2, .error err) => ({ st1 with envs := σ2 }, .error err)
              | none =>
                  match envAssign st1.envs st1.globals name v with
                  | (σ2, .ok _) => ({ st1 with envs := σ2 }, .ok v)
                  | (σ2, .error err) => ({ st1 with envs := σ2 }, .error err)
      | .Logical l operator r =>
          match evaluate fuel st l with
          | (st1, .error err) => (st1, .error err)
          | (st1, .ok lv) =>
              let is_left_truthy := is_truthy lv
              if operator.token_type = .OR then
                if is_left_truthy then (st1, .ok lv) else evaluate fuel st1 r
              else
                if !is_left_truthy then (st1, .ok lv) else evaluate fuel st1 r
      | .Call callee paren arguments =>
          match evaluate fuel st callee with
          | (st1, .error err) => (st1, .error err)
          | (st1, .ok calleeV) =>
              match evalArgs fuel st1 arguments with
              | (st2, .error err) => (st2, .error err)
              | (st2, .ok argVs) =>
                  match calleeV with
                  | .Func f =>
                      if argVs.length ≠ f.params.length then
                        (st2, .error (.RuntimeError paren
                          ("Expected " ++ toString f.params.length ++
                           " arguments but got " ++ toString argVs.length ++ ".")))
                      else callFunction fuel st2 f argVs
                  | .Clock =>
                      if argVs.length ≠ 0 then
                        (st2, .error (.RuntimeError paren
                          ("Expected 0 arguments but got " ++
                           toString argVs.length ++ ".")))
                      else
                        -- Clock::call returns the wall-clock milliseconds;
                        -- the instant is outside the language semantics and
                        -- is embedded as 0.
                        (st2, .ok (.Literal (.Isize 0)))
                  | .Class c =>
                      if argVs.length ≠ classArity c then
                        (st2, .error (.RuntimeError paren
                          ("Expected " ++ toString (classArity c) ++
                           " arguments but got " ++ toString argVs.length ++ ".")))
                      else callClass fuel st2 c argVs
                  | _ =>
                      (st2, .error (.RuntimeError paren
                        "Can only call functions and classes."))
      | .Get object name =>
          match evaluate fuel st object with
          | (st1, .error err) => (st1, .error err)
          | (st1, .ok (.Instance inst)) =>
              match instance_get st1.envs st1.fieldTables inst name with
              | (σ2, r) => ({ st1 with envs := σ2 }, r)
          | (st1, .ok _) =>
              (st1, .error (.RuntimeError name "Only instances have properties."))
      | .Set object name value =>
          match evaluate fuel st object with
          | (st1, .error err) => (st1, .error err)
          | (st1, .ok (.Instance inst)) =>
              match evaluate fuel st1 value with
              | (st2, .error err) => (st2, .error err)
              | (st2, .ok v) =>
                  ({ st2 with fieldTables := instance_set st2.fieldTables inst name v },
                   .ok v)
          | (st1, .ok _) =>
              (st1, .error (.RuntimeError name "Only instances have fields."))
      | .This keyword => (st, look_up_variable st keyword (.This keyword))
      | .Super keyword method =>
          match localsGet st (.Super keyword method) with
          | none => (st, .error (.panicked "super found on locals"))
          | some distance =>
              match st.envs.get? st.environment with
              | none => (st, .error (.panicked "dangling environment id"))
              | some env =>
                  match get_at st.envs env distance "super" with
                  | .error err => (st, .error err)
                  | .ok (.Class superclass) =>
                      match get_at st.envs env (distance - 1) "this" with
                      | .error err => (st, .error err)
                      | .ok (.Instance obj) =>
                          match find_method superclass method.lexeme with
                          | some m =>
                              let (σ2, bound) := bind st.envs m obj
                              ({ st with envs := σ2 }, .ok (.Func bound))
                          | none =>
                              (st, .error (.RuntimeError method
                                ("Undefined propertiesperty '" ++
                                 method.lexeme ++ "' '.")))
                      | .ok _ =>
                          -- message interpolates the Display of the value
                          (st, .error (.RuntimeError method
                            "this should be instance but actually"))
                  | .ok _ =>
                      (st, .error (.RuntimeError method
                        "super should be class but actually"))

/-- Embeds the left-to-right argument evaluation loop of visit_call
(interpreter.rs:308-311). -/
def evalArgs (fuel : Nat) (st : InterpState) (args : List Expr) :
    InterpState × Except Err (List Object) :=
  match fuel with
  | 0 => (st, .error .outOfFuel)
  | fuel + 1 =>
      match args with
      | [] => (st, .ok [])
      | a :: rest =>
          match evaluate fuel st a with
          | (st1, .error err) => (st1, .error err)
          | (st1, .ok v) =>
              match evalArgs fuel st1 rest with
              | (st2, .error err) => (st2, .error err)
              | (st2, .ok vs) => (st2, .ok (v :: vs))

/-- Embeds Interpreter::execute, dispatching as stmt::Acceptor does to the
visit_ statement methods of interpreter.rs. -/
def execute (fuel : Nat) (st : InterpState) (s : Stmt) :
    InterpState × Except Err Unit :=
  match fuel with
  | 0 => (st, .error .outOfFuel)
  | fuel + 1 =>
      match s with
      | .Expression e =>
          match evaluate fuel st e with
          | (st1, .error err) => (st1, .error err)
          | (st1, .ok _) => (st1, .ok ())
      | .Print e =>
          match evaluate fuel st e with
          | (st1, .error err) => (st1, .error err)
          | (st1, .ok v) => ({ st1 with output := st1.output ++ [v] }, .ok ())
      | .Var name initializer =>
          match evaluate fuel st initializer with
          | (st1, .error err) => (st1, .error err)
          | (st1, .ok v) => (stDefine st1 name.lexeme v, .ok ())
      | .Block statements =>
          execute_block fuel st statements
            { enclosing := some st.environment, values := [] }
      | .If condition then_branch else_branch =>
          -- visit_if_stmt (interpreter.rs:464-479): the then branch runs when
          -- the condition is truthy, and afterwards the else branch runs
          -- unconditionally whenever it exists.
          match evaluate fuel st condition with
          | (st1, .error err) => (st1, .error err)
          | (st1, .ok c) =>
              if is_truthy c then
                match execute fuel st1 then_branch with
                | (st2, .error err) => (st2, .error err)
                | (st2, .ok _) =>
                    match else_branch with
                    | some eb => execute fuel st2 eb
                    | none => (st2, .ok ())
              else
                match else_branch with
                | some eb => execute fuel st1 eb
                | none => (st1, .ok ())
      | .While condition body =>
          match evaluate fuel st condition with
          | (st1, .error err) => (st1, .error err)
          | (st1, .ok c) =>
              if is_truthy c then
                match execute fuel st1 body with
                | (st2, .error err) => (st2, .error err)
                | (st2, .ok _) => execute fuel st2 (.While condition body)
              else (st1, .ok ())
      | .Function name params body =>
          let f : LoxFunction :=
            { name := name, params := params, body := body,
              closure := st.environment, is_initializer := false }
          (stDefine st name.lexeme (.Func f), .ok ())
      | .Return _keyword v =>
          -- visit_return_stmt (interpreter.rs:508-517) matches a Nil literal
          -- specially; both arms produce the evaluated value.
          match v with
          | .Literal .None => (st, .error (.Return (.Literal .None)))
          | _ =>
              match evaluate fuel st v with
              | (st1, .error err) => (st1, .error err)
              | (st1, .ok val) => (st1, .error (.Return val))
      | .Class name super_class class_methods =>
          match super_class with
          | none => classStmtTail st name none class_methods
          | some sc =>
              match evaluate fuel st sc with
              | (st1, .error err) => (st1, .error err)
              | (st1, .ok (.Class lc)) =>
                  classStmtTail st1 name (some lc) class_methods
              | (st1, .ok _) =>
                  match sc with
                  | .Variable scname =>
                      (st1, .error (.RuntimeError scname
                        "Superclass must be a class."))
                  | _ => (st1, .error (.panicked "unreachable"))

/-- Embeds the statement loop inside Interpreter::execute_block
(interpreter.rs:98-106): run the statements in order, stopping at the
first error. -/
def executeStmts (fuel : Nat) (st : InterpState) (statements : List Stmt) :
    InterpState × Except Err Unit :=
  match fuel with
  | 0 => (st, .error .outOfFuel)
  | fuel + 1 =>
      match statements with
      | [] => (st, .ok ())
      | s :: rest =>
          match execute fuel st s with
          | (st1, .error err) => (st1, .error err)
          | (st1, .ok _) => executeStmts fuel st1 rest

/-- Embeds Interpreter::execute_block (interpreter.rs:95-109): remember the
current frame, install the supplied frame as a freshly allocated shared
frame, run the statements, and restore the remembered frame on both the
error path and the normal path. -/
def execute_block (fuel : Nat) (st : InterpState) (statements : List Stmt)
    (environment : Environment) : InterpState × Except Err Unit :=
  match fuel with
  | 0 => (st, .error .outOfFuel)
  | fuel + 1 =>
      let previous := st.environment
      let st1 : InterpState :=
        { st with envs := st.envs ++ [environment], environment := st.envs.length }
      match executeStmts fuel st1 statements with
      | (st2, .error err) => ({ st2 with environment := previous }, .error err)
      | (st2, .ok _) => ({ st2 with environment := previous }, .ok ())

/-- Embeds LoxFunction::call (callable.rs:59-76): a fresh frame child of the
captured closure binds each parameter to its positional argument, the body
runs as a block there; normal fall-through yields this (fetched at distance
0 in the closure) for an initializer and Nil otherwise, and a propagated
Return yields its carried value unconditionally — the source has no
initializer check on that arm. -/
def callFunction (fuel : Nat) (st : InterpState) (f : LoxFunction)
    (arguments : List Object) : InterpState × Except Err Object :=
  match fuel with
  | 0 => (st, .error .outOfFuel)
  | fuel + 1 =>
      let env0 : Environment := { enclosing := some f.closure, values := [] }
      let env :=
        (f.params.zip arguments).foldl
          (fun e pa => { e with values := insertAssoc e.values pa.1.lexeme pa.2 })
          env0
      match execute_block fuel st f.body env with
      | (st1, .ok _) =>
          if f.is_initializer then
            match st1.envs.get? f.closure with
            | none => (st1, .error (.panicked "dangling environment id"))
            | some cenv => (st1, get_at st1.envs cenv 0 "this")
          else (st1, .ok (.Literal .None))
      | (st1, .error (.Return return_value)) => (st1, .ok return_value)
      | (st1, .error err) => (st1, .error err)

/-- Embeds LoxClass::call (lox_class.rs:28-36): construct an instance with a
fresh field table; when an init method exists, bind it to the instance and
call it with the arguments; return the instance. -/
def callClass (fuel : Nat) (st : InterpState) (c : LoxClass)
    (arguments : List Object) : InterpState × Except Err Object :=
  match fuel with
  | 0 => (st, .error .outOfFuel)
  | fuel + 1 =>
      let inst : LoxInstance := { klass := c, fields := st.fieldTables.length }
      let st1 := { st with fieldTables := st.fieldTables ++ [[]] }
      match find_method c "init" with
      | some initializer =>
          let (σ2, bound) := bind st1.envs initializer inst
          match callFunction fuel { st1 with envs := σ2 } bound arguments with
          | (st2, .error err) => (st2, .error err)
          | (st2, .ok _) => (st2, .ok (.Instance inst))
      | none => (st1, .ok (.Instance inst))

end

/-- Embeds Interpreter::interpret (interpreter.rs:35-43): execute each
top-level statement in order; an error is reported to the diagnostic
channel and the loop proceeds to the next statement. -/
def interpret (fuel : Nat) (st : InterpState) : List Stmt → InterpState
  | [] => st
  | s :: rest =>
      match execute fuel st s with
      | (st1, .ok _) => interpret fuel st1 rest
      | (st1, .error e) => interpret fuel { st1 with diag := st1.diag ++ [e] } rest

/-- Embeds Interpreter::new (interpreter.rs:23-33): a single global frame
pre-defining clock, which is both the globals and the current environment;
the binding table is the resolver's output handed over through resolve. -/
def initialState (locals : List (Expr × Nat)) : InterpState :=
  { envs := [{ enclosing := none, values := insertAssoc [] "clock" .Clock }],
    fieldTables := [], globals := 0, environment := 0,
    locals := locals, output := [], diag := [] }

/-- Convenience constructor for tokens of the concrete test programs. -/
def tk (tt : TokenType) (lx : String) (ln : Nat) : Token :=
  { token_type := tt, lexeme := lx, literal := .None, line := ln }

/-- Follows the spec's words on equality (section 4.3 of the spec): true
exactly when both operands are the same primitive variant with equal
payloads (Nil with Nil, Bool, String, Integer, Float by value), false for
every other pair. Stated separately from is_equal so the two can be
compared. -/
def specVariantEqual (a b : Object) : Bool :=
  match a, b with
  | .Literal .None, .Literal .None => true
  | .Literal (.Bool x), .Literal (.Bool y) => x == y
  | .Literal (.LString x), .Literal (.LString y) => x == y
  | .Literal (.Isize x), .Literal (.Isize y) => x == y
  | .Literal (.Float x), .Literal (.Float y) => x == y
  | _, _ => false

/-- Token of the counter variable i of the makeCounter program. -/
def iTok : Token := tk .IDENTIFIER "i" 1

/-- Token of the inner function count of the makeCounter program. -/
def countTok : Token := tk .IDENTIFIER "count" 1

/-- Assignment expression i = i + 1 of the makeCounter program; also the
binding-table key the resolver records for it. -/
def assignIExpr : Expr :=
  .Assign iTok (.Binary (.Variable iTok) (tk .PLUS "+" 1) (.Literal (.Isize 1)))

/-- The makeCounter program of spec section 8:
fun makeCounter(){ var i=0; fun count(){ i=i+1; return i; } return count; }
var c=makeCounter(); print c(); print c(); -/
def makeCounterProg : List Stmt :=
  [ .Function (tk .IDENTIFIER "makeCounter" 1) []
      [ .Var iTok (.Literal (.Isize 0)),
        .Function countTok []
          [ .Expression assignIExpr,
            .Return (tk .RETURN "return" 1) (.Variable iTok) ],
        .Return (tk .RETURN "return" 1) (.Variable countTok) ],
    .Var (tk .IDENTIFIER "c" 2)
      (.Call (.Variable (tk .IDENTIFIER "makeCounter" 2)) (tk .RIGHTPAREN ")" 2) []),
    .Print (.Call (.Variable (tk .IDENTIFIER "c" 3)) (tk .RIGHTPAREN ")" 3) []),
    .Print (.Call (.Variable (tk .IDENTIFIER "c" 4)) (tk .RIGHTPAREN ")" 4) []) ]

/-- Binding table the two-pass resolver of spec section 4.1 produces for the
makeCounter program (resolver.rs is not in the snapshot): inside count, the
reads of i and the assignment to i live one function scope below the frame
declaring i, distance 1; the read of count in return count is in the frame
declaring count, distance 0; the top-level names are global and get no
entry. -/
def makeCounterLocals : List (Expr × Nat) :=
  [ (.Variable iTok, 1), (assignIExpr, 1), (.Variable countTok, 0) ]

/-- Program if (true) print 1; else print 2; -/
def ifTrueProg : List Stmt :=
  [ .If (.Literal (.Bool true)) (.Print (.Literal (.Isize 1)))
      (some (.Print (.Literal (.Isize 2)))) ]

/-- Program if (false) print 1; else print 2; -/
def ifFalseProg : List Stmt :=
  [ .If (.Literal (.Bool false)) (.Print (.Literal (.Isize 1)))
      (some (.Print (.Literal (.Isize 2)))) ]

/-- Token of the undefined global x of the continuation program. -/
def xTok : Token := tk .IDENTIFIER "x" 2

/-- Program print 7; x; print 8; — the middle statement raises an
undefined-variable RuntimeError at the top level. -/
def continuationProg : List Stmt :=
  [ .Print (.Literal (.Isize 7)), .Expression (.Variable xTok),
    .Print (.Literal (.Isize 8)) ]

/-- Program class Foo { init() { return; } } var f = Foo(); print f.init();
— the initializer body terminates by executing a bare return. -/
def initReturnProg : List Stmt :=
  [ .Class (tk .IDENTIFIER "Foo" 1) none
      [ .Function (tk .IDENTIFIER "init" 1) []
          [ .Return (tk .RETURN "return" 1) (.Literal .None) ] ],
    .Var (tk .IDENTIFIER "f" 2)
      (.Call (.Variable (tk .IDENTIFIER "Foo" 2)) (tk .RIGHTPAREN ")" 2) []),
    .Print (.Call (.Get (.Variable (tk .IDENTIFIER "f" 3)) (tk .IDENTIFIER "init" 3))
      (tk .RIGHTPAREN ")" 3) []) ]

/-- Program class Bar { init() {} } print Bar().init(); — the initializer
body falls through normally. -/
def initFallThroughProg : List Stmt :=
  [ .Class (tk .IDENTIFIER "Bar" 1) none
      [ .Function (tk .IDENTIFIER "init" 1) [] [] ],
    .Print (.Call (.Get (.Call (.Variable (tk .IDENTIFIER "Bar" 2))
        (tk .RIGHTPAREN ")" 2) []) (tk .IDENTIFIER "init" 2))
      (tk .RIGHTPAREN ")" 2) []) ]

/-- Instance of Bar that initFallThroughProg constructs and prints. -/
def barInstance : LoxInstance :=
  { klass :=
      { name := "Bar",
        methods := [("init",
          { name := tk .IDENTIFIER "init" 1, params := [], body := [],
            closure := 0, is_initializer := true })] },
    fields := 0 }

/-- Program class A { m() { return 42; } } class B < A {} var b = B();
print b.m(); — m is inherited, defined only on the superclass. -/
def inheritedMethodProg : List Stmt :=
  [ .Class (tk .IDENTIFIER "A" 1) none
      [ .Function (tk .IDENTIFIER "m" 1) []
          [ .Return (tk .RETURN "return" 1) (.Literal (.Isize 42)) ] ],
    .Class (tk .IDENTIFIER "B" 2) (some (.Variable (tk .IDENTIFIER "A" 2))) [],
    .Var (tk .IDENTIFIER "b" 3)
      (.Call (.Variable (tk .IDENTIFIER "B" 3)) (tk .RIGHTPAREN ")" 3) []),
    .Print (.Call (.Get (.Variable (tk .IDENTIFIER "b" 4)) (tk .IDENTIFIER "m" 4))
      (tk .RIGHTPAREN ")" 4) []) ]

/-- Program class A { m() { return 42; } } var a = A(); print a.m(); — m is
defined on the receiver's own class. -/
def ownMethodProg : List Stmt :=
  [ .Class (tk .IDENTIFIER "A" 1) none
      [ .Function (tk .IDENTIFIER "m" 1) []
          [ .Return (tk .RETURN "return" 1) (.Literal (.Isize 42)) ] ],
    .Var (tk .IDENTIFIER "a" 2)
      (.Call (.Variable (tk .IDENTIFIER "A" 2)) (tk .RIGHTPAREN ")" 2) []),
    .Print (.Call (.Get (.Variable (tk .IDENTIFIER "a" 3)) (tk .IDENTIFIER "m" 3))
      (tk .RIGHTPAREN ")" 3) []) ]

set_option maxRecDepth 16000 in
set_option maxHeartbeats 16000000 in
/-- C1: the claim fails on the code. Environment::assign_at operates on the
by-value clone Environment::ancestor returns (at every distance, d = 0
included), so the insert mutates a temporary that is immediately dropped
and the shared frame store is unchanged — first conjunct. Consequently the
makeCounter program of spec section 8, run with the binding distances the
resolver records, prints 0 then 0 instead of the claimed 1 then 2 — second
conjunct: the assignment i = i + 1 inside count is committed through
assign_at at distance 1 and lost. -/
theorem assign_at_discards_the_write :
    (∀ (σ : EnvStore) (env : Environment) (d : Nat) (name : Token) (v : Object),
        (assign_at σ env d name v).1 = σ)
    ∧ (interpret 100 (initialState makeCounterLocals) makeCounterProg).output
        = [.Literal (.Isize 0), .Literal (.Isize 0)] := by
  constructor
  · intro σ env d name v
    unfold assign_at
    cases ancestor σ env d <;> rfl
  · rfl

set_option maxRecDepth 16000 in
set_option maxHeartbeats 16000000 in
/-- C2: the claim fails on the code. The LoxClass of lox_class.rs records no
superclass and LoxClass::find_method inspects only the class's own method
table, so a property missing from the fields and from the receiver's own
class is reported as an undefined-property RuntimeError even when an
ancestor class defines it: the inherited-method program (class B < A where
only A defines m) prints nothing and reports "Undefined property 'm'"
(first two conjuncts), while the same access on the defining class itself
succeeds and prints 42 (third conjunct). -/
theorem method_lookup_stops_at_own_class :
    (interpret 100 (initialState []) inheritedMethodProg).output = []
    ∧ (interpret 100 (initialState []) inheritedMethodProg).diag
        = [.RuntimeError (tk .IDENTIFIER "m" 4) "Undefined property 'm'"]
    ∧ (interpret 100 (initialState []) ownMethodProg).output
        = [.Literal (.Isize 42)] := by
  refine ⟨rfl, rfl, ?_⟩
  simp [interpret, execute, evaluate, evalArgs, executeStmts, execute_block,
    callFunction, callClass, classStmtTail, stDefine, envDefine,
    look_up_variable, localsGet, envGet, envGetGo, envAssign, envAssignGo,
    get_at, assign_at, ancestor, bind, find_method, classArity, instance_get,
    instance_set, buildMethods, lookupAssoc, insertAssoc, updateAt, beqExpr,
    is_truthy, is_equal, binOp, unaryOp, initialState, tk,
    ownMethodProg, List.find?]

set_option maxRecDepth 16000 in
set_option maxHeartbeats 16000000 in
/-- C3: the claim fails on the code. visit_if_stmt executes the then branch
when the condition is truthy and afterwards executes the else branch
unconditionally whenever one exists, so if (true) print 1; else print 2;
prints both 1 and 2 (first conjunct); on a falsy condition only the else
branch runs (second conjunct). -/
theorem if_true_executes_both_branches :
    (interpret 100 (initialState []) ifTrueProg).output
        = [.Literal (.Isize 1), .Literal (.Isize 2)]
    ∧ (interpret 100 (initialState []) ifFalseProg).output
        = [.Literal (.Isize 2)] := by
  exact ⟨rfl, rfl⟩

set_option maxRecDepth 16000 in
set_option maxHeartbeats 16000000 in
/-- C4: the claim fails on the code. LoxFunction::call maps a propagated
Return outcome to its carried value with no initializer check (the
Err(Error::Return(v)) arm of callable.rs:73), so an initializer whose body
terminates by executing return yields Nil rather than the receiver: print
f.init() on class Foo whose init body is return; prints nil (first
conjunct). On normal fall-through the initializer does return this fetched
from its own closure: print Bar().init() on an empty-bodied init prints
the Bar instance (second conjunct). -/
theorem initializer_return_value_not_overridden :
    (interpret 100 (initialState []) initReturnProg).output = [.Literal .None]
    ∧ (interpret 100 (initialState []) initFallThroughProg).output
        = [.Instance barInstance] := by
  constructor <;>
    simp [interpret, execute, evaluate, evalArgs, executeStmts, execute_block,
      callFunction, callClass, classStmtTail, stDefine, envDefine,
      look_up_variable, localsGet, envGet, envGetGo, envAssign, envAssignGo,
      get_at, assign_at, ancestor, bind, find_method, classArity, instance_get,
      instance_set, buildMethods, lookupAssoc, insertAssoc, updateAt, beqExpr,
      is_truthy, is_equal, binOp, unaryOp, initialState, tk, initReturnProg,
      initFallThroughProg, barInstance, List.find?, Token.mk.injEq]

/-- C5: the claim fails on the code. Interpreter::is_truthy handles only
Literal objects as the claim describes (Nil and Bool false falsy, every
other literal — zero and the empty string included — truthy); every
Function, NativeFunction, Class and Instance value falls to the
FIXME-marked final arm and is falsy, where the claim says truthy. -/
theorem is_truthy_object_values_fall_to_false :
    is_truthy (.Literal .None) = false
    ∧ (∀ b, is_truthy (.Literal (.Bool b)) = b)
    ∧ (∀ n : Int, is_truthy (.Literal (.Isize n)) = true)
    ∧ (∀ q : Rat, is_truthy (.Literal (.Float q)) = true)
    ∧ (∀ s : String, is_truthy (.Literal (.LString s)) = true)
    ∧ (∀ f, is_truthy (.Func f) = false)
    ∧ is_truthy .Clock = false
    ∧ (∀ c, is_truthy (.Class c) = false)
    ∧ (∀ i, is_truthy (.Instance i) = false) :=
  ⟨rfl, fun _ => rfl, fun _ => rfl, fun _ => rfl, fun _ => rfl,
   fun _ => rfl, rfl, fun _ => rfl, fun _ => rfl⟩

/-- C6: the claim fails on the code. Literal operand combinations outside
the numeric (and String+String) table do produce a RuntimeError carrying
the operator token (last two conjuncts), but when either operand of an
arithmetic or comparison binary operator is a non-Literal object the code
hits the unreachable! arm — a panic, not a reported error (first two
conjuncts) — and unary minus on a non-Literal object falls to the default
arm and yields Nil with no error at all (middle conjuncts). -/
theorem operator_type_errors_panic_or_yield_nil :
    (∀ (lx : String) (lit : Literal) (ln : Nat),
        binOp ⟨.PLUS, lx, lit, ln⟩ (.Literal (.Isize 1)) .Clock
          = .error (.panicked "unreachable"))
    ∧ (∀ (lx : String) (lit : Literal) (ln : Nat) (f : LoxFunction) (b : Object),
        binOp ⟨.GREATER, lx, lit, ln⟩ (.Func f) b
          = .error (.panicked "unreachable"))
    ∧ (∀ (lx : String) (lit : Literal) (ln : Nat) (c : LoxClass),
        unaryOp ⟨.MINUS, lx, lit, ln⟩ (.Class c) = .ok (.Literal .None))
    ∧ (∀ (lx : String) (lit : Literal) (ln : Nat),
        unaryOp ⟨.MINUS, lx, lit, ln⟩ .Clock = .ok (.Literal .None))
    ∧ (∀ (lx : String) (lit : Literal) (ln : Nat) (i : LoxInstance),
        unaryOp ⟨.MINUS, lx, lit, ln⟩ (.Instance i) = .ok (.Literal .None))
    ∧ (∀ (lx : String) (lit : Literal) (ln : Nat),
        binOp ⟨.PLUS, lx, lit, ln⟩ (.Literal (.LString "a")) (.Literal (.Isize 1))
          = .error (.RuntimeError ⟨.PLUS, lx, lit, ln⟩ "Operands must be numbers."))
    ∧ (∀ (lx : String) (lit : Literal) (ln : Nat),
        unaryOp ⟨.MINUS, lx, lit, ln⟩ (.Literal (.LString "a"))
          = .error (.RuntimeError ⟨.MINUS, lx, lit, ln⟩ "Operand must be a number.")) :=
  ⟨fun _ _ _ => rfl, fun _ _ _ _ _ => rfl, fun _ _ _ _ => rfl,
   fun _ _ _ => rfl, fun _ _ _ _ => rfl, fun _ _ _ => rfl, fun _ _ _ => rfl⟩

/-- C7: confirmed. Interpreter::is_equal agrees everywhere with the
variant-exact rule the spec states (first conjunct, against the spec-side
specVariantEqual); the equality operators always produce a Bool and never
an error, for every pair of operand values, non-literal objects included
(second and third conjuncts, with bang-equal the negation of equal-equal);
and the spec's concrete cases hold: 1 == "1" is false, nil == nil is true,
1 == 1.0 is false (last conjuncts). -/
theorem equality_is_variant_exact_and_total :
    (∀ a b : Object, is_equal a b = specVariantEqual a b)
    ∧ (∀ (lx : String) (lit : Literal) (ln : Nat) (a b : Object),
        binOp ⟨.EQUALEQUAL, lx, lit, ln⟩ a b
          = .ok (.Literal (.Bool (is_equal a b))))
    ∧ (∀ (lx : String) (lit : Literal) (ln : Nat) (a b : Object),
        binOp ⟨.BANGEQUAL, lx, lit, ln⟩ a b
          = .ok (.Literal (.Bool (!(is_equal a b)))))
    ∧ is_equal (.Literal (.Isize 1)) (.Literal (.LString "1")) = false
    ∧ is_equal (.Literal .None) (.Literal .None) = true
    ∧ is_equal (.Literal (.Isize 1)) (.Literal (.Float 1)) = false := by
  refine ⟨?_, fun _ _ _ _ _ => rfl, fun _ _ _ _ _ => rfl, rfl, rfl, rfl⟩
  intro a b
  cases a with
  | Literal la =>
      cases b with
      | Literal lb => cases la <;> cases lb <;> rfl
      | Func f => cases la <;> rfl
      | Clock => cases la <;> rfl
      | Class c => cases la <;> rfl
      | Instance i => cases la <;> rfl
  | Func f => cases b <;> rfl
  | Clock => cases b <;> rfl
  | Class c => cases b <;> rfl
  | Instance i => cases b <;> rfl

/-- C8: confirmed. Interpreter::execute_block restores the prior
current-environment pointer on every exit path — normal completion and any
propagated error, the Return outcome included — so after a block the
current environment (the model's single environment field, there being
exactly one current environment at any instant) equals what it was before
entry, whatever the statements did. -/
theorem execute_block_always_restores_environment :
    ∀ (fuel : Nat) (st : InterpState) (statements : List Stmt) (env : Environment),
      ((execute_block fuel st statements env).1).environment = st.environment := by
  intro fuel st statements env
  cases fuel with
  | zero => rfl
  | succ n =>
      simp only [execute_block]
      rcases h : executeStmts n
        { st with envs := st.envs ++ [env], environment := st.envs.length }
        statements with ⟨st2, r⟩
      cases r <;> rfl

set_option maxRecDepth 16000 in
set_option maxHeartbeats 16000000 in
/-- C9: confirmed. When a top-level statement's execution ends in an error,
Interpreter::interpret appends that error to the diagnostic channel and
continues with the remaining statements from exactly the state the failing
statement left behind — no rollback, so side effects performed before the
error stand (first conjunct); concretely, print 7; x; print 8; prints 7
and 8 and reports the one undefined-variable RuntimeError (last two
conjuncts). -/
theorem interpret_reports_error_and_continues :
    (∀ (fuel : Nat) (st : InterpState) (s : Stmt) (rest : List Stmt)
        (st1 : InterpState) (e : Err),
        execute fuel st s = (st1, .error e) →
        interpret fuel st (s :: rest) =
          interpret fuel { st1 with diag := st1.diag ++ [e] } rest)
    ∧ (interpret 100 (initialState []) continuationProg).output
        = [.Literal (.Isize 7), .Literal (.Isize 8)]
    ∧ (interpret 100 (initialState []) continuationProg).diag
        = [.RuntimeError xTok "Undefined variableble 'x'."] := by
  refine ⟨?_, rfl, rfl⟩
  intro fuel st s rest st1 e h
  simp only [interpret]
  rw [h]

/-- Witness for C9: the continuation equation applied at the concrete
failing statement x (an undefined global), whose execution leaves the
initial state unchanged and errors, discharged by rfl. -/
theorem interpret_reports_error_and_continues_witness :
    interpret 100 (initialState [])
        [.Expression (.Variable xTok), .Print (.Literal (.Isize 8))]
      = interpret 100
          { initialState [] with diag := (initialState []).diag ++
              [.RuntimeError xTok "Undefined variableble 'x'."] }
          [.Print (.Literal (.Isize 8))] :=
  interpret_reports_error_and_continues.1 100 (initialState [])
    (.Expression (.Variable xTok)) [.Print (.Literal (.Isize 8))]
    (initialState []) (.RuntimeError xTok "Undefined variableble 'x'.") rfl

/-- C10: confirmed. The Integer/Integer branch of the SLASH case of
visit_binary divides with no zero guard: with a nonzero right operand it
returns the truncated Integer quotient (first conjunct), and at a zero
right operand the outcome is the division panic — not a reported
RuntimeError of any token and message (remaining conjuncts). -/
theorem integer_division_total_only_for_nonzero_divisor :
    ∀ (lx : String) (lit : Literal) (ln : Nat) (a b : Int),
      (b ≠ 0 → binOp ⟨.SLASH, lx, lit, ln⟩ (.Literal (.Isize a)) (.Literal (.Isize b))
          = .ok (.Literal (.Isize (Int.tdiv a b))))
      ∧ binOp ⟨.SLASH, lx, lit, ln⟩ (.Literal (.Isize a)) (.Literal (.Isize 0))
          = .error (.panicked "attempt to divide by zero")
      ∧ (∀ (t : Token) (msg : String),
          binOp ⟨.SLASH, lx, lit, ln⟩ (.Literal (.Isize a)) (.Literal (.Isize 0))
            ≠ .error (.RuntimeError t msg)) := by
  intro lx lit ln a b
  refine ⟨fun hb => ?_, ?_, ?_⟩
  · simp only [binOp]
    rw [if_neg hb]
  · simp [binOp]
  · intro t msg h
    simp [binOp] at h

/-- Witness for C10: 7 / 2 with the nonzero hypothesis discharged yields the
truncated quotient 3. -/
theorem integer_division_total_only_for_nonzero_divisor_witness :
    binOp ⟨.SLASH, "/", .None, 1⟩ (.Literal (.Isize 7)) (.Literal (.Isize 2))
      = .ok (.Literal (.Isize 3)) :=
  (integer_division_total_only_for_nonzero_divisor "/" .None 1 7 2).1 (by decide)

end LoxRust
